import Mathlib

/-!
Shallow embedding of the Homeopathy-LLM repository (Python sources:
`src/doctor_bot.py`, `src/telegram_bot.py`, `src/ingest_book.py`,
`src/old/old_ingest_book - Copy.py`).

External effects (vector-store retrieval, HTTP POST to the completion API,
exceptions raised by library calls) are modelled as explicit inputs:
a retriever is a function `String → List Document`, the outcome of the one
HTTP POST a `query_ai` call may make is an `HttpOutcome` value, and a library
call that may raise is an `Except String α` value.  Functions additionally
return the list of queries they sent to the retriever, or the number of HTTP
POSTs they performed, so that call-count properties are expressible.
-/

namespace HomeopathyLLM

/-- Python's `str.strip()` (no argument): remove leading and trailing
whitespace.  Defined on the character list so that it evaluates inside the
kernel. -/
def strip (s : String) : String :=
  ⟨((s.data.dropWhile Char.isWhitespace).reverse.dropWhile Char.isWhitespace).reverse⟩

/-- Lower-case one character (ASCII range, which covers every character the
bots compare against). -/
def lowerChar (c : Char) : Char :=
  if 65 ≤ c.toNat ∧ c.toNat ≤ 90 then Char.ofNat (c.toNat + 32) else c

/-- Python's `str.lower()`. -/
def lower (s : String) : String :=
  ⟨s.data.map lowerChar⟩

/-- Python's `str.startswith(p)`. -/
def startswith (s p : String) : Bool :=
  p.data.isPrefixOf s.data

/-- A chat message: a role/content pair, as the Python dicts
`{"role": ..., "content": ...}` used throughout both bots. -/
structure Message where
  role : String
  content : String
deriving DecidableEq, Repr

/-- A retrieved document; only its `page_content` is ever read by the bots. -/
structure Document where
  page_content : String
deriving DecidableEq, Repr

/-- Outcome of the single HTTP POST a `query_ai` call may perform:
either the request raised (`exn`), or a response arrived carrying a status
code, the text at `json["choices"][0]["message"]["content"]`, and the
optional text at `json["error"]["message"]`. -/
inductive HttpOutcome where
  | exn (msg : String)
  | resp (status : Nat) (content : String) (error_message : Option String)
deriving DecidableEq, Repr

namespace DoctorBot

/-- Mirrors `HomeopathyDoctorBot.get_relevant_context` (doctor_bot.py,
lines 33-38): one `retriever.invoke(query)` call, then the newline-join of
the documents' `page_content`.  The second component records the queries
sent to the retriever (the source performs exactly one `.invoke`). -/
def get_relevant_context (retriever : String → List Document) (query : String) :
    String × List String :=
  let docs := retriever query
  (String.intercalate "\n" (docs.map (fun d => d.page_content)), [query])

/-- Mirrors `HomeopathyDoctorBot.query_ai` (doctor_bot.py, lines 40-102).
`api_key` is the value of `os.getenv("CHUTEAI_API_KEY")` (`none` = unset;
Python's `if not api_key` also treats `""` as missing).  The second component
counts the HTTP POSTs performed. -/
def query_ai (api_key : Option String) (http : HttpOutcome) : String × Nat :=
  match api_key with
  | none => ("Error: Configuration missing CHUTEAI_API_KEY.", 0)
  | some key =>
    if key = "" then ("Error: Configuration missing CHUTEAI_API_KEY.", 0)
    else
      match http with
      | .exn e =>
        ("Error: Failed to connect to Chute.ai. Check your connection or API endpoint. Details: "
          ++ e, 1)
      | .resp status content error_message =>
        if status = 200 then (content, 1)
        else
          ("Error: Unable to get response (Status: " ++ toString status
            ++ "). Chute.ai Message: "
            ++ error_message.getD "No detailed error message.", 1)

/-- The quit test of the CLI loop (doctor_bot.py, line 115):
`user_input.lower() in ['quit', 'exit', 'bye']`. -/
def isQuitInput (user_input : String) : Bool :=
  lower user_input == "quit" || lower user_input == "exit" ||
    lower user_input == "bye"

/-- What one iteration of the CLI loop did. -/
inductive CliAction where
  | quit
  | reprompt
  | errored (printed : String)
  | answered (response : String)
deriving DecidableEq, Repr

/-- Result of one iteration of the CLI loop: the updated chat history, the
action taken, and whether retrieval / the AI query were reached. -/
structure CliTurnResult where
  chat_history : List Message
  action : CliAction
  retrieval_called : Bool
  ai_called : Bool
deriving DecidableEq, Repr

/-- Mirrors one iteration of `HomeopathyDoctorBot.start_consultation`
(doctor_bot.py, lines 111-145).  `raw_input` is what `input()` returned;
`retrieval` is the outcome of `get_relevant_context` (`.error` = the call
raised), `ai` the outcome of `query_ai` when reached (`.error` = it raised;
note `query_ai` returns error *strings* for HTTP failures, which arrive here
as `.ok` values starting with `"Error:"`).  A raised exception is caught by
the loop's `except Exception` clause, which prints a message and continues. -/
def start_consultation_turn (chat_history : List Message) (raw_input : String)
    (retrieval : Except String String) (ai : Except String String) :
    CliTurnResult :=
  let user_input := strip raw_input
  if isQuitInput user_input then
    ⟨chat_history, .quit, false, false⟩
  else if user_input = "" then
    ⟨chat_history, .reprompt, false, false⟩
  else
    match retrieval with
    | .error e =>
      ⟨chat_history, .errored ("I encountered an issue. Please try again. Error: " ++ e),
        true, false⟩
    | .ok _context =>
      match ai with
      | .error e =>
        ⟨chat_history, .errored ("I encountered an issue. Please try again. Error: " ++ e),
          true, true⟩
      | .ok response =>
        let h := chat_history ++ [⟨"user", user_input⟩]
        let h := if startswith response "Error:" then h else h ++ [⟨"assistant", response⟩]
        ⟨h, .answered response, true, true⟩

end DoctorBot

namespace TelegramBot

/-- Per-user session state created by `get_user_session` (telegram_bot.py,
lines 40-48): `{'chat_history': [], 'consultation_count': 0, 'last_query': None}`.
(The `/start` handler recreates the dict without a `'last_query'` key; since
that key is never read anywhere, absence and `None` are indistinguishable to
the program and both are modelled as `none`.) -/
structure Session where
  chat_history : List Message
  consultation_count : Nat
  last_query : Option String
deriving DecidableEq, Repr

/-- The sessions dict `self.user_sessions`, keyed by Telegram user id. -/
abbrev Sessions : Type := Nat → Option Session

/-- Mirrors `get_user_session` (telegram_bot.py, lines 40-48): return the
existing session, or insert and return a fresh one. -/
def get_user_session (sessions : Sessions) (user_id : Nat) : Session × Sessions :=
  match sessions user_id with
  | some s => (s, sessions)
  | none =>
    let fresh : Session := ⟨[], 0, none⟩
    (fresh, fun uid => if uid = user_id then some fresh else sessions uid)

/-- The composite retrieval query built by `get_relevant_context`
(telegram_bot.py, lines 55-60): the space-join of the prior user messages'
contents, prefixed to the query, unless that join is empty. -/
def composite_query (query : String) (history : List Message) : String :=
  let user_history := (history.filter (fun m => m.role == "user")).map (fun m => m.content)
  let history_summary := String.intercalate " " user_history
  if history_summary ≠ "" then
    "Patient's case summary: " ++ history_summary ++ " " ++ query
  else query

/-- Mirrors `TelegramHomeopathyBot.get_relevant_context` (telegram_bot.py,
lines 50-64): one `retriever.invoke(composite_query)` call, then the
newline-join of the documents' `page_content`.  The second component records
the queries sent to the retriever. -/
def get_relevant_context (retriever : String → List Document) (query : String)
    (history : List Message) : String × List String :=
  let cq := composite_query query history
  let docs := retriever cq
  (String.intercalate "\n" (docs.map (fun d => d.page_content)), [cq])

/-- Mirrors `TelegramHomeopathyBot.query_ai` (telegram_bot.py, lines 66-132).
`api_key` is `os.getenv("OPENROUTER_API_KEY")`.  The second component counts
the HTTP POSTs performed. -/
def query_ai (api_key : Option String) (http : HttpOutcome) : String × Nat :=
  match api_key with
  | none =>
    ("❌ Configuration Error: The AI service API key (OPENROUTER_API_KEY) is missing. Please check your setup.", 0)
  | some key =>
    if key = "" then
      ("❌ Configuration Error: The AI service API key (OPENROUTER_API_KEY) is missing. Please check your setup.", 0)
    else
      match http with
      | .exn e => ("❌ Connection error. Please try again. Error: " ++ e, 1)
      | .resp status content _error_message =>
        if status = 200 then (content, 1)
        else
          ("❌ I'm having technical difficulties. Please try again later. (Error: "
            ++ toString status ++ ")", 1)

/-- Mirrors `handle_symptoms` (telegram_bot.py, lines 164-214) acting on one
user's session: increment `consultation_count`, then inside `try` run
retrieval and the AI query (each may raise; `.error` = raised).  Only on
success are the user and assistant messages appended and the history
truncated to its last six entries.  Returns the new session and the reply
text sent on success (`none` = the generic error reply was sent). -/
def handle_symptoms (s : Session) (user_input : String)
    (retrieval : Except String String) (ai : Except String String) :
    Session × Option String :=
  let s := { s with consultation_count := s.consultation_count + 1 }
  match retrieval with
  | .error _ => (s, none)
  | .ok _context =>
    match ai with
    | .error _ => (s, none)
    | .ok response =>
      let h := s.chat_history ++ [⟨"user", user_input⟩, ⟨"assistant", response⟩]
      let h := if h.length > 6 then h.drop (h.length - 6) else h
      ({ s with chat_history := h }, some response)

/-- Mirrors the `/start` handler (telegram_bot.py, lines 156-162): replace
the invoking user's session with `{'chat_history': [], 'consultation_count': 0}`. -/
def start (sessions : Sessions) (user_id : Nat) : Sessions :=
  fun uid => if uid = user_id then some ⟨[], 0, none⟩ else sessions uid

/-- Mirrors the "🔄 Start a new consultation" branch of `handle_quick_actions`
(telegram_bot.py, lines 222-233): if the invoking user has a session, replace
it with a fresh one; otherwise leave the dict untouched. -/
def handle_quick_actions_reset (sessions : Sessions) (user_id : Nat) : Sessions :=
  match sessions user_id with
  | some _ => fun uid => if uid = user_id then some ⟨[], 0, none⟩ else sessions uid
  | none => sessions

end TelegramBot

/-- A chunk produced by the text splitter: its text and the keys of its
metadata dict (the only part of the metadata the two ingestion scripts can
differ on). -/
structure Chunk where
  page_content : String
  metadata_keys : List String
deriving DecidableEq, Repr

/-- The keyword arguments the scripts pass to
`RecursiveCharacterTextSplitter` (langchain's `add_start_index` defaults to
`False` when not passed). -/
structure SplitterConfig where
  chunk_size : Nat
  chunk_overlap : Nat
  add_start_index : Bool
deriving DecidableEq, Repr

/-- The external langchain primitives the ingestion scripts invoke:
`PyPDFLoader(...).load()` and
`RecursiveCharacterTextSplitter(...).split_documents(...)`. -/
structure IngestLib where
  load : String → List Chunk
  split : SplitterConfig → List Chunk → List Chunk

/-- What an ingestion run hands to `Chroma.from_documents`. -/
structure IngestResult where
  chunks : List Chunk
  embedding_model : String
  persist_directory : String
deriving DecidableEq, Repr

/-- Splitter arguments of `ingest_book.py`, lines 13-16:
`chunk_size=1000, chunk_overlap=200` (no `add_start_index`). -/
def ingest_splitter_config : SplitterConfig := ⟨1000, 200, false⟩

/-- Splitter arguments of `old/old_ingest_book - Copy.py`, lines 14-18:
`chunk_size=1000, chunk_overlap=200, add_start_index=True`. -/
def old_ingest_splitter_config : SplitterConfig := ⟨1000, 200, true⟩

/-- Mirrors `main` of `ingest_book.py` (lines 7-30): load
`homeopathy_book.pdf`, split, embed with
`sentence-transformers/all-MiniLM-L6-v2`, persist to `./vector_db`. -/
def ingest_book_main (lib : IngestLib) : IngestResult :=
  let documents := lib.load "homeopathy_book.pdf"
  let chunks := lib.split ingest_splitter_config documents
  ⟨chunks, "sentence-transformers/all-MiniLM-L6-v2", "./vector_db"⟩

/-- Mirrors `ingest_data` of `old/old_ingest_book - Copy.py` (lines 8-32);
its `__main__` block calls it with `"homeopathy_book.pdf"`. -/
def ingest_data (lib : IngestLib) (pdf_path : String) : IngestResult :=
  let docs := lib.load pdf_path
  let all_splits := lib.split old_ingest_splitter_config docs
  ⟨all_splits, "sentence-transformers/all-MiniLM-L6-v2", "./vector_db"⟩

/-- A splitter implementation honouring the documented behaviour of
`add_start_index`: when the flag is set, every produced chunk's metadata
additionally carries a `start_index` key. -/
def libFlagSensitive : IngestLib where
  load := fun _ => [⟨"page text", ["source", "page"]⟩]
  split := fun cfg docs =>
    docs.map (fun d =>
      if cfg.add_start_index then
        { d with metadata_keys := d.metadata_keys ++ ["start_index"] }
      else d)

/-- One successful CLI turn with fixed input and outcomes, for iterating the
loop on concrete data. -/
def cliTurnH (h : List Message) : List Message :=
  (DoctorBot.start_consultation_turn h "cough" (Except.ok "ctx") (Except.ok "rest")).chat_history

/-- One successful Telegram turn with fixed input and outcomes, for iterating
`handle_symptoms` on concrete data. -/
def tgTurn (s : TelegramBot.Session) : TelegramBot.Session :=
  (TelegramBot.handle_symptoms s "a" (Except.ok "c") (Except.ok "b")).1

/-- The fresh session `get_user_session` creates. -/
def initSession : TelegramBot.Session := ⟨[], 0, none⟩

/-!  Theorems about the embedded program. -/

/-- Claim C5: in both bots, when the required API-key environment variable is
absent (`none`) or empty (`""`), `query_ai` returns the configuration-error
string and performs zero HTTP POSTs. -/
theorem c5_missing_api_key_no_request :
    ∀ http : HttpOutcome,
    DoctorBot.query_ai none http =
      ("Error: Configuration missing CHUTEAI_API_KEY.", 0) ∧
    DoctorBot.query_ai (some "") http =
      ("Error: Configuration missing CHUTEAI_API_KEY.", 0) ∧
    TelegramBot.query_ai none http =
      ("❌ Configuration Error: The AI service API key (OPENROUTER_API_KEY) is missing. Please check your setup.", 0) ∧
    TelegramBot.query_ai (some "") http =
      ("❌ Configuration Error: The AI service API key (OPENROUTER_API_KEY) is missing. Please check your setup.", 0) := by
  intro http
  exact ⟨rfl, rfl, rfl, rfl⟩

/-- Claim C2: `query_ai` (either bot) is a total function of the one HTTP
outcome (so a failed request or a non-200 status never propagates an
exception to the caller), it performs at most one HTTP POST, and with a
usable key it turns a raised request (`exn`) into an error string containing
the exception message and a non-200 response into an error string containing
the status code. -/
theorem c2_query_ai_total_single_post :
    ∀ (api_key : Option String) (http : HttpOutcome),
    (DoctorBot.query_ai api_key http).2 ≤ 1 ∧
    (TelegramBot.query_ai api_key http).2 ≤ 1 ∧
    (∀ k, api_key = some k → k ≠ "" →
      (∀ e, http = .exn e →
        (∃ p q, (DoctorBot.query_ai api_key http).1 = p ++ e ++ q) ∧
        (∃ p q, (TelegramBot.query_ai api_key http).1 = p ++ e ++ q)) ∧
      (∀ st c em, http = .resp st c em → st ≠ 200 →
        (∃ p q, (DoctorBot.query_ai api_key http).1 = p ++ toString st ++ q) ∧
        (∃ p q, (TelegramBot.query_ai api_key http).1 = p ++ toString st ++ q))) := by
  intro api_key http
  refine ⟨?_, ?_, ?_⟩
  · cases api_key with
    | none => exact Nat.zero_le 1
    | some k =>
      by_cases hk : k = "" <;>
        · cases http <;> simp [DoctorBot.query_ai, hk] <;> split <;> simp
  · cases api_key with
    | none => exact Nat.zero_le 1
    | some k =>
      by_cases hk : k = "" <;>
        · cases http <;> simp [TelegramBot.query_ai, hk] <;> split <;> simp
  · rintro k rfl hk
    constructor
    · rintro e rfl
      constructor
      · exact ⟨"Error: Failed to connect to Chute.ai. Check your connection or API endpoint. Details: ",
          "", by simp [DoctorBot.query_ai, hk, String.append_empty]⟩
      · exact ⟨"❌ Connection error. Please try again. Error: ", "",
          by simp [TelegramBot.query_ai, hk, String.append_empty]⟩
    · rintro st c em rfl hst
      constructor
      · refine ⟨"Error: Unable to get response (Status: ",
          "). Chute.ai Message: " ++ em.getD "No detailed error message.", ?_⟩
        simp [DoctorBot.query_ai, hk, hst, String.append_assoc]
      · refine ⟨"❌ I'm having technical difficulties. Please try again later. (Error: ", ")", ?_⟩
        simp [TelegramBot.query_ai, hk, hst]

/-- Witness for C2: with key `"k"` and a raised request with message
`"boom"`, the Telegram `query_ai` result contains `"boom"`. -/
theorem c2_query_ai_total_single_post_witness :
    ∃ p q, (TelegramBot.query_ai (some "k") (.exn "boom")).1 = p ++ "boom" ++ q :=
  (((c2_query_ai_total_single_post (some "k") (.exn "boom")).2.2 "k" rfl
    (by decide)).1 "boom" rfl).2

/-- Claim C1 (counterexample): the CLI loop performs no truncation, so after
four successful turns starting from an empty history the CLI chat history
holds eight entries — more than six. -/
theorem c1_cli_history_exceeds_six :
    ¬ (cliTurnH (cliTurnH (cliTurnH (cliTurnH [])))).length ≤ 6 := by decide

/-- Claim C1 (amended): in the Telegram bot, a handled turn keeps the history
at six entries or fewer (given it was within the bound before), and on a
successful turn the history becomes exactly the most recent entries — all of
`old ++ [user, assistant]` when that fits, otherwise its last six. -/
theorem c1_telegram_history_bounded :
    ∀ (s : TelegramBot.Session) (input : String) (retrieval ai : Except String String),
    s.chat_history.length ≤ 6 →
    ((TelegramBot.handle_symptoms s input retrieval ai).1.chat_history.length ≤ 6 ∧
     ∀ c resp, retrieval = .ok c → ai = .ok resp →
       (TelegramBot.handle_symptoms s input retrieval ai).1.chat_history =
         (s.chat_history ++ [Message.mk "user" input, Message.mk "assistant" resp]).drop
           ((s.chat_history ++
             [Message.mk "user" input, Message.mk "assistant" resp]).length - 6)) := by
  intro s input retrieval ai h6
  cases retrieval with
  | error e =>
    exact ⟨by simpa [TelegramBot.handle_symptoms] using h6,
      by intro c resp hc; cases hc⟩
  | ok ctx =>
    cases ai with
    | error e =>
      exact ⟨by simpa [TelegramBot.handle_symptoms] using h6,
        by intro c resp _ hr; cases hr⟩
    | ok resp =>
      constructor
      · simp only [TelegramBot.handle_symptoms]
        split
        · simp only [List.length_drop]
          omega
        · simp only [List.length_append, List.length_cons, List.length_nil] at *
          omega
      · intro c r hc hr
        injection hr with hr
        subst hr
        simp only [TelegramBot.handle_symptoms]
        split
        · rfl
        · next hgt =>
          have h0 : (s.chat_history ++
              [Message.mk "user" input, Message.mk "assistant" resp]).length - 6 = 0 := by
            omega
          rw [h0, List.drop_zero]

/-- Witness for C1 (amended): one successful turn from the empty session
keeps the history within six entries. -/
theorem c1_telegram_history_bounded_witness :
    (TelegramBot.handle_symptoms ⟨[], 0, none⟩ "a" (Except.ok "c")
      (Except.ok "b")).1.chat_history.length ≤ 6 :=
  (c1_telegram_history_bounded ⟨[], 0, none⟩ "a" (Except.ok "c") (Except.ok "b")
    (by decide)).1

/-- Claim C3 (counterexample): two reachable Telegram sessions (after three
and after four identical successful turns) have the same chat history but
different `consultation_count`, so the per-user session state does not
consist only of the conversation history. -/
theorem c3_session_not_only_history :
    (tgTurn (tgTurn (tgTurn initSession))).chat_history =
      (tgTurn (tgTurn (tgTurn (tgTurn initSession)))).chat_history ∧
    (tgTurn (tgTurn (tgTurn initSession))).consultation_count ≠
      (tgTurn (tgTurn (tgTurn (tgTurn initSession)))).consultation_count ∧
    tgTurn (tgTurn (tgTurn initSession)) ≠
      tgTurn (tgTurn (tgTurn (tgTurn initSession))) := by decide

/-- Claim C3 (amended): the Telegram session keeps, besides the chat history,
a `consultation_count` and a `last_query` field; neither influences the
reply nor the next chat history — a handled turn's history and reply are
functions of the stored history (and the turn's inputs) alone, the count just
increments, and `last_query` is never changed. -/
theorem c3_only_history_influences_behavior :
    ∀ (h : List Message) (c c' : Nat) (q q' : Option String) (input : String)
      (retrieval ai : Except String String),
    (TelegramBot.handle_symptoms ⟨h, c, q⟩ input retrieval ai).1.chat_history =
      (TelegramBot.handle_symptoms ⟨h, c', q'⟩ input retrieval ai).1.chat_history ∧
    (TelegramBot.handle_symptoms ⟨h, c, q⟩ input retrieval ai).2 =
      (TelegramBot.handle_symptoms ⟨h, c', q'⟩ input retrieval ai).2 ∧
    (TelegramBot.handle_symptoms ⟨h, c, q⟩ input retrieval ai).1.consultation_count =
      c + 1 ∧
    (TelegramBot.handle_symptoms ⟨h, c, q⟩ input retrieval ai).1.last_query = q := by
  intro h c c' q q' input retrieval ai
  cases retrieval <;> cases ai <;> simp [TelegramBot.handle_symptoms]

/-- Claim C4 (counterexample): the Telegram bot does not forward its query
unchanged — with one prior user message `"hi"`, the retriever is invoked with
the rewritten query `"Patient's case summary: hi q"`, not with `"q"`. -/
theorem c4_telegram_query_rewritten :
    (TelegramBot.get_relevant_context (fun _ => []) "q" [⟨"user", "hi"⟩]).2 =
      ["Patient's case summary: hi q"] ∧
    (TelegramBot.get_relevant_context (fun _ => []) "q" [⟨"user", "hi"⟩]).2 ≠
      ["q"] := by decide

/-- Claim C4 (amended): the CLI bot's `get_relevant_context` makes a single
retriever call with the query unchanged and returns the newline-join of the
documents' `page_content`; the Telegram bot's makes a single call with the
composite query — the query prefixed by `"Patient's case summary: "` and the
space-join of the prior user messages — unless that join is empty (in
particular whenever the history is empty), in which case the query is
forwarded unchanged. -/
theorem c4_retrieval_forwarding :
    ∀ (retriever : String → List Document) (query : String) (history : List Message),
    DoctorBot.get_relevant_context retriever query =
      (String.intercalate "\n" ((retriever query).map (fun d => d.page_content)),
        [query]) ∧
    TelegramBot.get_relevant_context retriever query history =
      (String.intercalate "\n"
          ((retriever (TelegramBot.composite_query query history)).map
            (fun d => d.page_content)),
        [TelegramBot.composite_query query history]) ∧
    (String.intercalate " "
        ((history.filter (fun m => m.role == "user")).map (fun m => m.content)) = "" →
      TelegramBot.composite_query query history = query) ∧
    (history = [] → TelegramBot.composite_query query history = query) := by
  intro retriever query history
  refine ⟨rfl, rfl, ?_, ?_⟩
  · intro hempty
    simp [TelegramBot.composite_query, hempty]
  · rintro rfl
    rfl

/-- Witness for C4 (amended): with a history holding only an assistant
message, the summary is empty and the composite query equals the query. -/
theorem c4_retrieval_forwarding_witness :
    TelegramBot.composite_query "q" [⟨"assistant", "x"⟩] = "q" :=
  (c4_retrieval_forwarding (fun _ => []) "q" [⟨"assistant", "x"⟩]).2.2.1 (by decide)

/-- Claim C6: in a CLI turn that reaches retrieval (non-empty, non-quit
input), a raised exception in `get_relevant_context` or in `query_ai` is
caught at the loop level: the turn ends as `.errored` with the printed error
message, and the chat history is exactly what it was before the turn. -/
theorem c6_cli_exception_leaves_history :
    ∀ (h : List Message) (raw : String) (retrieval ai : Except String String),
    DoctorBot.isQuitInput (strip raw) = false →
    strip raw ≠ "" →
    ((∀ e, retrieval = .error e →
       DoctorBot.start_consultation_turn h raw retrieval ai =
         ⟨h, .errored ("I encountered an issue. Please try again. Error: " ++ e),
           true, false⟩) ∧
     (∀ c e, retrieval = .ok c → ai = .error e →
       DoctorBot.start_consultation_turn h raw retrieval ai =
         ⟨h, .errored ("I encountered an issue. Please try again. Error: " ++ e),
           true, true⟩)) := by
  intro h raw retrieval ai hq hne
  constructor
  · rintro e rfl
    simp [DoctorBot.start_consultation_turn, hq, hne]
  · rintro c e rfl rfl
    simp [DoctorBot.start_consultation_turn, hq, hne]

/-- Witness for C6: input `"hi"` with retrieval raising `"boom"` leaves the
empty history empty and reports the error. -/
theorem c6_cli_exception_leaves_history_witness :
    DoctorBot.start_consultation_turn [] "hi" (Except.error "boom") (Except.ok "x") =
      ⟨[], .errored "I encountered an issue. Please try again. Error: boom",
        true, false⟩ :=
  (c6_cli_exception_leaves_history [] "hi" (Except.error "boom") (Except.ok "x")
    (by decide) (by decide)).1 "boom" rfl

/-- Claim C8: a CLI turn appends a response as an assistant message only if
it does not start with `"Error:"` (so the no-`"Error:"`-assistant-entry
invariant is preserved), while on a turn whose query succeeded with an
`"Error:"`-prefixed response only the user message is appended. -/
theorem c8_cli_no_error_assistant_entries :
    ∀ (h : List Message) (raw : String) (retrieval ai : Except String String),
    (∀ m ∈ h, m.role = "assistant" → startswith m.content "Error:" = false) →
    ((∀ m ∈ (DoctorBot.start_consultation_turn h raw retrieval ai).chat_history,
        m.role = "assistant" → startswith m.content "Error:" = false) ∧
     (∀ c resp, retrieval = .ok c → ai = .ok resp →
        startswith resp "Error:" = true →
        DoctorBot.isQuitInput (strip raw) = false → strip raw ≠ "" →
        (DoctorBot.start_consultation_turn h raw retrieval ai).chat_history =
          h ++ [Message.mk "user" (strip raw)])) := by
  intro h raw retrieval ai good
  constructor
  · intro m hm
    by_cases hq : DoctorBot.isQuitInput (strip raw) = true
    · simp only [DoctorBot.start_consultation_turn, hq, if_true] at hm
      exact good m hm
    · rw [Bool.not_eq_true] at hq
      by_cases hne : strip raw = ""
      · simp only [DoctorBot.start_consultation_turn, hq, hne] at hm
        simp at hm
        exact good m hm
      · cases retrieval with
        | error e =>
          simp only [DoctorBot.start_consultation_turn, hq, hne] at hm
          simp at hm
          exact good m hm
        | ok ctx =>
          cases ai with
          | error e =>
            simp only [DoctorBot.start_consultation_turn, hq, hne] at hm
            simp at hm
            exact good m hm
          | ok resp =>
            simp only [DoctorBot.start_consultation_turn, hq, hne] at hm
            by_cases herr : startswith resp "Error:" = true
            · simp [herr] at hm
              rcases hm with hm | hm
              · exact good m hm
              · subst hm
                intro hrole
                simp at hrole
            · rw [Bool.not_eq_true] at herr
              simp [herr] at hm
              rcases hm with hm | hm | hm
              · exact good m hm
              · subst hm
                intro hrole
                simp at hrole
              · subst hm
                intro _
                exact herr
  · rintro c resp rfl rfl herr hq hne
    simp [DoctorBot.start_consultation_turn, hq, hne, herr]

/-- Witness for C8: from a good history, input `"hi"` with a successful query
returning `"Error: boom"` appends only the user message. -/
theorem c8_cli_no_error_assistant_entries_witness :
    (DoctorBot.start_consultation_turn [] "hi" (Except.ok "ctx")
      (Except.ok "Error: boom")).chat_history = [Message.mk "user" "hi"] := by
  have hres := (c8_cli_no_error_assistant_entries [] "hi" (Except.ok "ctx")
    (Except.ok "Error: boom") (by simp)).2 "ctx" "Error: boom" rfl rfl
    (by decide) (by decide) (by decide)
  simpa using hres

/-- Claim C9: a CLI turn on input that strips to the empty string, or whose
stripped lower-casing is `quit`/`exit`/`bye`, calls neither retrieval nor the
AI, leaves the chat history unchanged, and re-prompts (empty) respectively
quits (quit word). -/
theorem c9_cli_skip_paths :
    ∀ (h : List Message) (raw : String) (retrieval ai : Except String String),
    (strip raw = "" ∨ DoctorBot.isQuitInput (strip raw) = true) →
    ((DoctorBot.start_consultation_turn h raw retrieval ai).chat_history = h ∧
     (DoctorBot.start_consultation_turn h raw retrieval ai).retrieval_called = false ∧
     (DoctorBot.start_consultation_turn h raw retrieval ai).ai_called = false ∧
     (DoctorBot.isQuitInput (strip raw) = true →
       (DoctorBot.start_consultation_turn h raw retrieval ai).action = .quit) ∧
     (strip raw = "" →
       (DoctorBot.start_consultation_turn h raw retrieval ai).action = .reprompt)) := by
  intro h raw retrieval ai hcase
  by_cases hq : DoctorBot.isQuitInput (strip raw) = true
  · refine ⟨?_, ?_, ?_, ?_, ?_⟩ <;>
      simp [DoctorBot.start_consultation_turn, hq]
    intro hempty
    rw [hempty] at hq
    cases hq
  · rw [Bool.not_eq_true] at hq
    rcases hcase with hempty | hquit
    · have hq0 : DoctorBot.isQuitInput "" = false := by decide
      refine ⟨?_, ?_, ?_, ?_, ?_⟩ <;>
        simp [DoctorBot.start_consultation_turn, hempty, hq0]
    · rw [hquit] at hq
      cases hq

/-- Witness for C9: input `" Quit "` quits without touching the history and
without calling retrieval or the AI. -/
theorem c9_cli_skip_paths_witness :
    (DoctorBot.start_consultation_turn [] " Quit " (Except.ok "c")
        (Except.ok "r")).chat_history = ([] : List Message) ∧
    (DoctorBot.start_consultation_turn [] " Quit " (Except.ok "c")
        (Except.ok "r")).retrieval_called = false := by
  have hres := c9_cli_skip_paths [] " Quit " (Except.ok "c") (Except.ok "r")
    (Or.inr (by decide))
  exact ⟨hres.1, hres.2.1⟩

/-- Claim C10: the `/start` handler and the new-consultation quick action
replace only the invoking user's session with a fresh one (empty history,
zero count); every other user's entry in the sessions map is unchanged, and
the invoking user's session afterwards has an empty chat history and a zero
consultation count. -/
theorem c10_reset_only_invoking_user :
    ∀ (sessions : TelegramBot.Sessions) (u v : Nat), v ≠ u →
    (TelegramBot.start sessions u v = sessions v ∧
     TelegramBot.handle_quick_actions_reset sessions u v = sessions v ∧
     TelegramBot.start sessions u u = some ⟨[], 0, none⟩ ∧
     (TelegramBot.get_user_session
        (TelegramBot.handle_quick_actions_reset sessions u) u).1.chat_history = [] ∧
     (TelegramBot.get_user_session
        (TelegramBot.handle_quick_actions_reset sessions u) u).1.consultation_count = 0) := by
  intro sessions u v hvu
  refine ⟨?_, ?_, ?_, ?_, ?_⟩
  · simp [TelegramBot.start, hvu]
  · cases hs : sessions u with
    | none => simp [TelegramBot.handle_quick_actions_reset, hs]
    | some s => simp [TelegramBot.handle_quick_actions_reset, hs, hvu]
  · simp [TelegramBot.start]
  · cases hs : sessions u with
    | none =>
      simp [TelegramBot.handle_quick_actions_reset, hs, TelegramBot.get_user_session]
    | some s =>
      simp [TelegramBot.handle_quick_actions_reset, hs, TelegramBot.get_user_session]
  · cases hs : sessions u with
    | none =>
      simp [TelegramBot.handle_quick_actions_reset, hs, TelegramBot.get_user_session]
    | some s =>
      simp [TelegramBot.handle_quick_actions_reset, hs, TelegramBot.get_user_session]

/-- Witness for C10: on the empty sessions map with users 0 and 1, resetting
user 0 leaves user 1's (absent) entry unchanged. -/
theorem c10_reset_only_invoking_user_witness :
    TelegramBot.start (fun _ => none) 0 1 = none :=
  (c10_reset_only_invoking_user (fun _ => none) 0 1 (by decide)).1

/-- Claim C7 (counterexample): the two ingestion scripts pass different
splitter arguments (`ingest_book.py` leaves `add_start_index` at its `False`
default, the old script sets it to `True`), so under a splitter honouring
that flag — produced chunks additionally carry a `start_index` metadata
key — the two runs produce different chunks. -/
theorem c7_ingest_scripts_not_equivalent :
    ingest_splitter_config ≠ old_ingest_splitter_config ∧
    ingest_book_main libFlagSensitive ≠
      ingest_data libFlagSensitive "homeopathy_book.pdf" := by decide

/-- Claim C7 (amended): the two ingestion scripts agree on everything except
`add_start_index`: same input PDF, same chunk size 1000 and overlap 200, same
embedding model and persist directory, and — for any splitter whose chunk
texts do not depend on `add_start_index` — identical chunk texts. -/
theorem c7_ingest_equivalent_up_to_start_index :
    ∀ lib : IngestLib,
    (∀ cfg docs, (lib.split cfg docs).map (fun d => d.page_content) =
       (lib.split ⟨cfg.chunk_size, cfg.chunk_overlap, false⟩ docs).map
         (fun d => d.page_content)) →
    ((ingest_book_main lib).chunks.map (fun d => d.page_content) =
       (ingest_data lib "homeopathy_book.pdf").chunks.map (fun d => d.page_content) ∧
     (ingest_book_main lib).embedding_model =
       (ingest_data lib "homeopathy_book.pdf").embedding_model ∧
     (ingest_book_main lib).persist_directory =
       (ingest_data lib "homeopathy_book.pdf").persist_directory ∧
     ingest_splitter_config.chunk_size = old_ingest_splitter_config.chunk_size ∧
     ingest_splitter_config.chunk_overlap = old_ingest_splitter_config.chunk_overlap) := by
  intro lib hsplit
  refine ⟨?_, rfl, rfl, rfl, rfl⟩
  have hx := hsplit old_ingest_splitter_config (lib.load "homeopathy_book.pdf")
  simpa [ingest_book_main, ingest_data, ingest_splitter_config,
    old_ingest_splitter_config] using hx.symm

/-- Witness for C7 (amended): `libFlagSensitive` changes only metadata, never
chunk texts, so both scripts produce the same chunk texts under it. -/
theorem c7_ingest_equivalent_up_to_start_index_witness :
    (ingest_book_main libFlagSensitive).chunks.map (fun d => d.page_content) =
      (ingest_data libFlagSensitive "homeopathy_book.pdf").chunks.map
        (fun d => d.page_content) :=
  (c7_ingest_equivalent_up_to_start_index libFlagSensitive
    (by
      intro cfg docs
      by_cases hc : cfg.add_start_index <;> simp [libFlagSensitive, hc])).1

end HomeopathyLLM
